import Mathlib

/-!
Verification of `src/MRDS/find_lc_spearman_significance.py`, a library that
computes the statistical significance of the difference between two
correlation coefficients (dependent and independent cases), each with a
test-statistic method and a Zou confidence-interval method.

The Python module calls three SciPy distribution routines: `norm.ppf`
(standard-normal quantile), `norm.cdf` (standard-normal CDF) and `t.cdf`
(Student-t CDF).  These are external library code, not part of the
repository, so they are embedded as abstract real functions collected in a
`Dist` structure; the properties of the real SciPy functions that a claim
needs (for instance that the normal quantile is nonnegative at levels at or
above one half, or that a Student-t CDF evaluates to one half at zero) are
taken as explicit hypotheses of those claims.

Python-level failures are made explicit, and the embedding returns
`Except Err _` with one `Err` constructor per failure mode.  The module
imports `atanh`, `pow` and `tanh` from `math`, not from numpy, so:
`rz_ci` computes its z-bounds and then calls `tanh((zl, zu))` on a tuple,
which raises `TypeError` on every call that reaches it — `rz_ci` never
returns a pair, and both `zou` branches, which call it first, always raise;
`math.pow(x, 0.5)` raises `ValueError` for negative `x`; `math.atanh`
raises `ValueError` outside `(-1, 1)`; `rho_rxy_rxz` raises
`ZeroDivisionError` when its denominator is zero; both comparison functions
raise `Exception` on an unrecognized method string; and the independent
`zou` branch would raise a `TypeError` from `None - 3` if an absent `n2`
ever reached its second `rz_ci` call (the `None` default is only replaced
inside the `fisher` branch).  The `steiger` branch's `(nan, nan)` sentinel
is embedded as `Except.ok none`, a value distinct from every computed pair
and from every raised error.
-/

namespace MVLSA

/-- The SciPy distribution functions used by the module, embedded as abstract
real functions: the standard-normal quantile (`norm.ppf`), the
standard-normal CDF (`norm.cdf`), and the Student-t CDF (`t.cdf`, taking the
evaluation point and the degrees of freedom). -/
structure Dist where
  normPpf : ℝ → ℝ
  normCdf : ℝ → ℝ
  tCdf : ℝ → ℝ → ℝ

/-- The Python-level failure modes of the module: the wrong-method
`Exception`, the `TypeError` raised by `math.tanh` on a tuple or by
arithmetic on `None`, `ZeroDivisionError`, and the `ValueError` raised by
`math.pow` on a negative radicand or by `math.atanh` outside `(-1, 1)`. -/
inductive Err where
  | wrongMethod : Err
  | typeError : Err
  | divByZero : Err
  | valueError : Err
deriving DecidableEq

/-- `math.atanh`, the inverse hyperbolic tangent, via its closed form
`artanh r = log((1+r)/(1-r)) / 2` (valid on `(-1, 1)`, the domain on which
the Python function is defined). -/
noncomputable def atanh (r : ℝ) : ℝ :=
  Real.log ((1 + r) / (1 - r)) / 2

/-- `math.pow(x, 0.5)` (the module imports `pow` from `math`): the square
root for nonnegative `x`, a `ValueError` for negative `x`. -/
noncomputable def powHalf (x : ℝ) : Except Err ℝ :=
  if x < 0 then Except.error Err.valueError else Except.ok (Real.sqrt x)

/-- `rz_ci(r, n, conf_level)`: computes `zr_se = pow(1/(n-3), .5)` (a
`ZeroDivisionError` at `n = 3`, a `ValueError` below), then
`moe = norm.ppf(1 - (1-conf_level)/2) * zr_se`, then `atanh(r)` (a
`ValueError` outside `(-1, 1)`, since `atanh` is `math.atanh`), and finally
executes `return tanh((zl, zu))`.  The module imports `tanh` from `math`,
not numpy, and `math.tanh` applied to the tuple `(zl, zu)` raises
`TypeError` unconditionally, so every call that reaches the `return` raises
instead of returning a pair. -/
noncomputable def rz_ci (D : Dist) (r : ℝ) (n : ℕ) (conf_level : ℝ) :
    Except Err (ℝ × ℝ) :=
  if ((n : ℝ) - 3) = 0 then Except.error Err.divByZero
  else
    match powHalf (1 / ((n : ℝ) - 3)) with
    | Except.error e => Except.error e
    | Except.ok zr_se =>
      let moe := D.normPpf (1 - (1 - conf_level) / 2) * zr_se
      if r ≤ -1 ∨ 1 ≤ r then Except.error Err.valueError
      else
        let zu := atanh r + moe
        let zl := atanh r - moe
        Except.error Err.typeError

/-- Modelled from the spec: §4.1 says `rz_ci` "transforms r to z-space via
inverse hyperbolic tangent (atanh), adds/subtracts the margin to get
upper/lower z-bounds, then maps both back to correlation space via
hyperbolic tangent (tanh)" and outputs the "ordered pair
(lower_r, upper_r)".  This is the intended elementwise-tanh computation
that the source's `tanh((zl, zu))` call fails to perform because `tanh` is
`math.tanh` rather than numpy's elementwise `tanh`. -/
noncomputable def rz_ciSpec (D : Dist) (r : ℝ) (n : ℕ) (conf_level : ℝ) :
    ℝ × ℝ :=
  let zr_se := Real.sqrt (1 / ((n : ℝ) - 3))
  let moe := D.normPpf (1 - (1 - conf_level) / 2) * zr_se
  let zu := atanh r + moe
  let zl := atanh r - moe
  (Real.tanh zl, Real.tanh zu)

/-- `rho_rxy_rxz(rxy, rxz, ryz)`: the partial-correlation helper.
`num = (ryz - 1/2*rxy*rxz)*(1 - rxy**2 - rxz**2 - ryz**2) + ryz**3`,
`den = (1 - rxy**2)*(1 - rxz**2)`, returns `num/den`; a zero denominator
raises `ZeroDivisionError` (Python float division). -/
noncomputable def rho_rxy_rxz (rxy rxz ryz : ℝ) : Except Err ℝ :=
  let num := (ryz - 1/2 * rxy * rxz) * (1 - rxy^2 - rxz^2 - ryz^2) + ryz^3
  let den := (1 - rxy^2) * (1 - rxz^2)
  if den = 0 then Except.error Err.divByZero else Except.ok (num / den)

/-- The local `determin` of the steiger branch:
`1 - xy**2 - xz**2 - yz**2 + 2*xy*xz*yz`. -/
noncomputable def steiger_determin (xy xz yz : ℝ) : ℝ :=
  1 - xy^2 - xz^2 - yz^2 + 2 * xy * xz * yz

/-- The local `av` of the steiger branch: `(xy + xz)/2`. -/
noncomputable def steiger_av (xy xz : ℝ) : ℝ :=
  (xy + xz) / 2

/-- The local `cube` of the steiger branch: `(1 - yz)*(1 - yz)*(1 - yz)`. -/
noncomputable def steiger_cube (yz : ℝ) : ℝ :=
  (1 - yz) * (1 - yz) * (1 - yz)

/-- The local `e` of the steiger branch:
`(n-1)*(1+yz) / ((2*(n-1)/(n-3))*determin + av**2*cube)`. -/
noncomputable def steiger_e (xy xz yz : ℝ) (n : ℕ) : ℝ :=
  ((n : ℝ) - 1) * (1 + yz) /
    (2 * ((n : ℝ) - 1) / ((n : ℝ) - 3) * steiger_determin xy xz yz
      + (steiger_av xy xz)^2 * steiger_cube yz)

/-- `dependent_corr(xy, xz, yz, n, twotailed, conf_level, method)`.
The `steiger` branch returns `(nan, nan)` (embedded `Except.ok none`) when
`e < 0`, else `(t2, p)` with `t2 = d*sqrt(e)` and
`p = 1 - t.cdf(abs(t2), n-2)`, doubled if `twotailed`.  The `zou` branch
replaces a `None` confidence level by `0.95` and then evaluates, in source
order: the `rz_ci` intervals of `xy` and of `xz` (each call raises — see
`rz_ci` — so the branch never gets further), the `rho_rxy_rxz` covariance
term, and the two `pow(…, 0.5)` square roots of possibly negative
radicands, propagating the first exception; only if nothing raised would it
return the `(lower, upper)` interval.  Any other method string raises. -/
noncomputable def dependent_corr (D : Dist) (xy xz yz : ℝ) (n : ℕ)
    (twotailed : Bool) (conf_level : Option ℝ) (method : String) :
    Except Err (Option (ℝ × ℝ)) :=
  if method = "steiger" then
    let d := xy - xz
    let e := steiger_e xy xz yz n
    if e < 0 then Except.ok none
    else
      let t2 := d * Real.sqrt e
      let p := 1 - D.tCdf |t2| ((n : ℝ) - 2)
      Except.ok (some (t2, if twotailed then p * 2 else p))
  else if method = "zou" then
    let cl := conf_level.getD 0.95
    match rz_ci D xy n cl with
    | Except.error e => Except.error e
    | Except.ok ci1 =>
      match rz_ci D xz n cl with
      | Except.error e => Except.error e
      | Except.ok ci2 =>
        let L1 := ci1.1
        let U1 := ci1.2
        let L2 := ci2.1
        let U2 := ci2.2
        match rho_rxy_rxz xy xz yz with
        | Except.error e => Except.error e
        | Except.ok rho_r12_r13 =>
          match powHalf ((xy - L1)^2 + (U2 - xz)^2
              - 2 * rho_r12_r13 * (xy - L1) * (U2 - xz)) with
          | Except.error e => Except.error e
          | Except.ok s1 =>
            match powHalf ((U1 - xy)^2 + (xz - L2)^2
                - 2 * rho_r12_r13 * (U1 - xy) * (xz - L2)) with
            | Except.error e => Except.error e
            | Except.ok s2 =>
              Except.ok (some (xy - xz - s1, xy - xz + s2))
  else Except.error Err.wrongMethod

/-- `independent_corr(xy, ab, n, n2, twotailed, conf_level, method)`.
The `fisher` branch transforms both correlations with
`0.5*log((1+r)/(1-r))`, substitutes `n` for an absent `n2`, and returns
`(z, p)` with `z = abs(diff / sqrt(1/(n-3) + 1/(n2-3)))` and
`p = 1 - norm.cdf(z)`, doubled if `twotailed`.  The `zou` branch evaluates,
in source order: the `rz_ci` interval of `xy` (the call raises — see
`rz_ci` — so the branch never gets further), the `rz_ci` interval of `ab`
with the unsubstituted `n2` (if `n2` is `None` the `None - 3` inside
`rz_ci` would raise a `TypeError`), and the two `pow(…, 0.5)` square roots,
propagating the first exception; only if nothing raised would it return
the `(lower, upper)` interval.  Any other method string raises. -/
noncomputable def independent_corr (D : Dist) (xy ab : ℝ) (n : ℕ)
    (n2 : Option ℕ) (twotailed : Bool) (conf_level : ℝ) (method : String) :
    Except Err (ℝ × ℝ) :=
  if method = "fisher" then
    let xy_z := 0.5 * Real.log ((1 + xy) / (1 - xy))
    let xz_z := 0.5 * Real.log ((1 + ab) / (1 - ab))
    let m := n2.getD n
    let se_diff_r := Real.sqrt (1 / ((n : ℝ) - 3) + 1 / ((m : ℝ) - 3))
    let diff := xy_z - xz_z
    let z := |diff / se_diff_r|
    let p := 1 - D.normCdf z
    Except.ok (z, if twotailed then p * 2 else p)
  else if method = "zou" then
    match rz_ci D xy n conf_level with
    | Except.error e => Except.error e
    | Except.ok ci1 =>
      match n2 with
      | none => Except.error Err.typeError
      | some m =>
        match rz_ci D ab m conf_level with
        | Except.error e => Except.error e
        | Except.ok ci2 =>
          let L1 := ci1.1
          let U1 := ci1.2
          let L2 := ci2.1
          let U2 := ci2.2
          match powHalf ((xy - L1)^2 + (U2 - ab)^2) with
          | Except.error e => Except.error e
          | Except.ok s1 =>
            match powHalf ((U1 - xy)^2 + (ab - L2)^2) with
            | Except.error e => Except.error e
            | Except.ok s2 =>
              Except.ok (xy - ab - s1, xy - ab + s2)
  else Except.error Err.wrongMethod

/-- A concrete `Dist` instance usable in witnesses: the quantile is
identically `0` and both CDFs are identically `1/2`, which satisfies the
point properties of the real SciPy functions that the claims assume. -/
noncomputable def D0 : Dist :=
  ⟨fun _ => 0, fun _ => 1/2, fun _ _ => 1/2⟩

/-! ### Facts about `Real.tanh` and `atanh`

Mathlib 4.14 has almost no lemmas about `Real.tanh`, so the monotonicity,
range and inverse facts needed for the interval claims are derived here from
the exponential representation. -/

/-- `tanh` in terms of the exponential: `tanh x = (e^(2x) - 1)/(e^(2x) + 1)`. -/
theorem tanh_eq_exp (x : ℝ) :
    Real.tanh x = (Real.exp (2 * x) - 1) / (Real.exp (2 * x) + 1) := by
  have hx : (0 : ℝ) < Real.exp x := Real.exp_pos x
  have h2 : Real.exp (2 * x) = Real.exp x * Real.exp x := by
    rw [two_mul, Real.exp_add]
  rw [Real.tanh_eq_sinh_div_cosh, Real.sinh_eq, Real.cosh_eq, Real.exp_neg, h2]
  have hne : Real.exp x ≠ 0 := ne_of_gt hx
  have hsum : Real.exp x + (Real.exp x)⁻¹ ≠ 0 := by positivity
  have hden : Real.exp x * Real.exp x + 1 ≠ 0 := by positivity
  field_simp

/-- `tanh` is strictly below `1`. -/
theorem tanh_lt_one (x : ℝ) : Real.tanh x < 1 := by
  rw [tanh_eq_exp]
  have h : (0 : ℝ) < Real.exp (2 * x) := Real.exp_pos _
  rw [div_lt_one (by linarith)]
  linarith

/-- `tanh` is strictly above `-1`. -/
theorem neg_one_lt_tanh (x : ℝ) : -1 < Real.tanh x := by
  rw [tanh_eq_exp]
  have h : (0 : ℝ) < Real.exp (2 * x) := Real.exp_pos _
  rw [lt_div_iff₀ (by linarith)]
  linarith

/-- `tanh` is monotone. -/
theorem tanh_le_tanh {x y : ℝ} (h : x ≤ y) : Real.tanh x ≤ Real.tanh y := by
  rw [tanh_eq_exp, tanh_eq_exp]
  have ha : (0 : ℝ) < Real.exp (2 * x) := Real.exp_pos _
  have hb : (0 : ℝ) < Real.exp (2 * y) := Real.exp_pos _
  have hab : Real.exp (2 * x) ≤ Real.exp (2 * y) :=
    Real.exp_le_exp.mpr (by linarith)
  rw [div_le_div_iff₀ (by linarith) (by linarith)]
  nlinarith

/-- On `(-1, 1)`, `tanh` inverts `atanh`. -/
theorem tanh_atanh {r : ℝ} (h1 : -1 < r) (h2 : r < 1) :
    Real.tanh (atanh r) = r := by
  have hp : (0 : ℝ) < 1 + r := by linarith
  have hm : (0 : ℝ) < 1 - r := by linarith
  have hu : (0 : ℝ) < (1 + r) / (1 - r) := div_pos hp hm
  rw [tanh_eq_exp, atanh]
  have h2x : 2 * (Real.log ((1 + r) / (1 - r)) / 2)
      = Real.log ((1 + r) / (1 - r)) := by ring
  rw [h2x, Real.exp_log hu]
  have hd : (1 + r) / (1 - r) + 1 ≠ 0 := by
    have : (0 : ℝ) < (1 + r) / (1 - r) + 1 := by linarith
    linarith
  field_simp
  ring

/-- For every correlation in `(-1, 1)` and sample size above `3`, `rz_ci`
reaches its `return tanh((zl, zu))` line and raises the `math.tanh`
`TypeError`.  Shared by several claims about the `zou` branches. -/
theorem rz_ci_eq_typeError (D : Dist) {r : ℝ} {n : ℕ} (conf_level : ℝ)
    (hr1 : -1 < r) (hr2 : r < 1) (hn : 3 < n) :
    rz_ci D r n conf_level = Except.error Err.typeError := by
  have hn3 : (3 : ℝ) < (n : ℝ) := by exact_mod_cast hn
  have h3 : ¬ (((n : ℝ) - 3) = 0) := by linarith
  have hpos : ¬ ((1 : ℝ) / ((n : ℝ) - 3) < 0) := by
    have : (0 : ℝ) < 1 / ((n : ℝ) - 3) := div_pos one_pos (by linarith)
    linarith
  have hdom : ¬ (r ≤ -1 ∨ 1 ≤ r) := by
    push_neg
    exact ⟨by linarith, by linarith⟩
  simp only [rz_ci, powHalf, if_neg h3, if_neg hpos, if_neg hdom]

/-! ### Claims -/

/-- C1: the claim says `rz_ci` returns an ordered pair `(lower, upper)`
with `lower ≤ r ≤ upper`, `lower ≤ upper`, and both bounds in `(-1, 1)`.
The code cannot return at all: `tanh` is `math.tanh`, and `tanh((zl, zu))`
on a tuple raises `TypeError` on every call in the claimed domain (first
conjunct).  The spec-intended elementwise computation `rz_ciSpec` does
satisfy every claimed interval property (second conjunct); `norm.ppf` is
external SciPy code, and the hypothesis on it records the property of the
real quantile the claim depends on: it is nonnegative at levels at or
above `1/2`. -/
theorem rz_ci_raises_spec_interval :
    (∀ (D : Dist) (r : ℝ) (n : ℕ) (conf_level : ℝ),
      -1 < r → r < 1 → 3 < n →
      rz_ci D r n conf_level = Except.error Err.typeError) ∧
    (∀ (D : Dist) (r : ℝ) (n : ℕ) (conf_level : ℝ),
      -1 < r → r < 1 → 3 < n → 0 < conf_level → conf_level < 1 →
      (∀ q : ℝ, 1/2 ≤ q → 0 ≤ D.normPpf q) →
      (rz_ciSpec D r n conf_level).1 ≤ r ∧
      r ≤ (rz_ciSpec D r n conf_level).2 ∧
      (rz_ciSpec D r n conf_level).1 ≤ (rz_ciSpec D r n conf_level).2 ∧
      (-1 < (rz_ciSpec D r n conf_level).1 ∧
        (rz_ciSpec D r n conf_level).1 < 1) ∧
      (-1 < (rz_ciSpec D r n conf_level).2 ∧
        (rz_ciSpec D r n conf_level).2 < 1)) := by
  constructor
  · intro D r n conf_level hr1 hr2 hn
    exact rz_ci_eq_typeError D conf_level hr1 hr2 hn
  · intro D r n conf_level hr1 hr2 hn hc1 hc2 hppf
    have hq : (1 : ℝ)/2 ≤ 1 - (1 - conf_level)/2 := by linarith
    have hmoe : 0 ≤ D.normPpf (1 - (1 - conf_level)/2)
        * Real.sqrt (1/((n : ℝ) - 3)) :=
      mul_nonneg (hppf _ hq) (Real.sqrt_nonneg _)
    have hlow : Real.tanh (atanh r - D.normPpf (1 - (1 - conf_level)/2)
        * Real.sqrt (1/((n : ℝ) - 3))) ≤ r :=
      calc Real.tanh (atanh r - D.normPpf (1 - (1 - conf_level)/2)
            * Real.sqrt (1/((n : ℝ) - 3)))
          ≤ Real.tanh (atanh r) := tanh_le_tanh (by linarith)
        _ = r := tanh_atanh hr1 hr2
    have hhigh : r ≤ Real.tanh (atanh r + D.normPpf (1 - (1 - conf_level)/2)
        * Real.sqrt (1/((n : ℝ) - 3))) :=
      calc r = Real.tanh (atanh r) := (tanh_atanh hr1 hr2).symm
        _ ≤ Real.tanh (atanh r + D.normPpf (1 - (1 - conf_level)/2)
            * Real.sqrt (1/((n : ℝ) - 3))) := tanh_le_tanh (by linarith)
    exact ⟨hlow, hhigh, le_trans hlow hhigh,
      ⟨neg_one_lt_tanh _, tanh_lt_one _⟩, ⟨neg_one_lt_tanh _, tanh_lt_one _⟩⟩

/-- Witness for C1 at `r = 0`, `n = 4`, `conf_level = 1/2` with the trivial
distribution table `D0`: the code raises, the spec-intended computation
satisfies the claimed interval properties. -/
theorem rz_ci_raises_spec_interval_witness :
    ((-1 : ℝ) < 0 ∧ (0 : ℝ) < 1 ∧ 3 < 4 ∧ (0 : ℝ) < 1/2 ∧ (1 : ℝ)/2 < 1 ∧
      (∀ q : ℝ, 1/2 ≤ q → 0 ≤ D0.normPpf q)) ∧
    rz_ci D0 0 4 (1/2) = Except.error Err.typeError ∧
    ((rz_ciSpec D0 0 4 (1/2)).1 ≤ 0 ∧ (0 : ℝ) ≤ (rz_ciSpec D0 0 4 (1/2)).2 ∧
      (rz_ciSpec D0 0 4 (1/2)).1 ≤ (rz_ciSpec D0 0 4 (1/2)).2 ∧
      (-1 < (rz_ciSpec D0 0 4 (1/2)).1 ∧ (rz_ciSpec D0 0 4 (1/2)).1 < 1) ∧
      (-1 < (rz_ciSpec D0 0 4 (1/2)).2 ∧ (rz_ciSpec D0 0 4 (1/2)).2 < 1)) :=
  ⟨⟨by norm_num, by norm_num, by norm_num, by norm_num, by norm_num,
      fun q _ => le_refl 0⟩,
    rz_ci_raises_spec_interval.1 D0 0 4 (1/2) (by norm_num) (by norm_num)
      (by norm_num),
    rz_ci_raises_spec_interval.2 D0 0 4 (1/2) (by norm_num) (by norm_num)
      (by norm_num) (by norm_num) (by norm_num) (fun q _ => le_refl 0)⟩

/-- C2: for both methods, calling `independent_corr` with `n2` absent
produces the same result as calling it with `n2 = n`.  For `fisher` the
branch itself substitutes `n` for the absent `n2`.  For `zou` the equality
holds degenerately: the branch first evaluates `rz_ci(xy, n, conf_level)`,
which raises the `math.tanh` `TypeError` before `n2` is ever consulted, so
both calls raise the identical exception. -/
theorem independent_corr_n2_absent_eq (D : Dist) (xy ab : ℝ) (n : ℕ)
    (twotailed : Bool) (conf_level : ℝ)
    (hxy1 : -1 < xy) (hxy2 : xy < 1) (hab1 : -1 < ab) (hab2 : ab < 1)
    (hn : 3 < n) :
    independent_corr D xy ab n none twotailed conf_level "fisher" =
      independent_corr D xy ab n (some n) twotailed conf_level "fisher" ∧
    independent_corr D xy ab n none twotailed conf_level "zou" =
      independent_corr D xy ab n (some n) twotailed conf_level "zou" := by
  constructor
  · rfl
  · have h := rz_ci_eq_typeError D conf_level hxy1 hxy2 hn
    have hz : ¬ (("zou" : String) = "fisher") := by decide
    simp only [independent_corr, if_neg hz, eq_self_iff_true, if_true, h]

/-- Witness for C2 at `xy = ab = 0`, `n = 4`. -/
theorem independent_corr_n2_absent_eq_witness :
    ((-1 : ℝ) < 0 ∧ (0 : ℝ) < 1 ∧ 3 < 4) ∧
    (independent_corr D0 0 0 4 none true (95/100) "fisher" =
      independent_corr D0 0 0 4 (some 4) true (95/100) "fisher" ∧
    independent_corr D0 0 0 4 none true (95/100) "zou" =
      independent_corr D0 0 0 4 (some 4) true (95/100) "zou") :=
  ⟨⟨by norm_num, by norm_num, by norm_num⟩,
    independent_corr_n2_absent_eq D0 0 0 4 true (95/100) (by norm_num)
      (by norm_num) (by norm_num) (by norm_num) (by norm_num)⟩

/-- C3: whenever the steiger variance quantity `e` is negative,
`dependent_corr` with method `steiger` returns the not-a-number sentinel
pair (embedded as `Except.ok none`) and does not raise. -/
theorem dependent_corr_steiger_neg_e (D : Dist) (xy xz yz : ℝ) (n : ℕ)
    (twotailed : Bool) (conf_level : Option ℝ)
    (hxy1 : -1 < xy) (hxy2 : xy < 1) (hxz1 : -1 < xz) (hxz2 : xz < 1)
    (hyz1 : -1 < yz) (hyz2 : yz < 1) (hn : 3 < n)
    (he : steiger_e xy xz yz n < 0) :
    dependent_corr D xy xz yz n twotailed conf_level "steiger" =
      Except.ok none := by
  simp [dependent_corr, he]

/-- Witness for C3 at `xy = 0.99`, `xz = -0.99`, `yz = 0.99`, `n = 10`. -/
theorem dependent_corr_steiger_neg_e_witness :
    steiger_e (99/100) (-(99/100)) (99/100) 10 < 0 ∧
    dependent_corr D0 (99/100) (-(99/100)) (99/100) 10 true none "steiger" =
      Except.ok none := by
  have he : steiger_e ((99 : ℝ)/100) (-(99/100)) (99/100) 10 < 0 := by
    norm_num [steiger_e, steiger_determin, steiger_av, steiger_cube]
  exact ⟨he, dependent_corr_steiger_neg_e D0 (99/100) (-(99/100)) (99/100) 10
    true none (by norm_num) (by norm_num) (by norm_num) (by norm_num)
    (by norm_num) (by norm_num) (by norm_num) he⟩

/-- C4: any method string outside `{steiger, zou}` passed to
`dependent_corr`, and any method string outside `{fisher, zou}` passed to
`independent_corr`, raises the `Wrong method!` exception and returns no
numeric result. -/
theorem wrong_method_raises :
    (∀ (D : Dist) (xy xz yz : ℝ) (n : ℕ) (twotailed : Bool)
        (conf_level : Option ℝ) (method : String),
      method ≠ "steiger" → method ≠ "zou" →
      dependent_corr D xy xz yz n twotailed conf_level method =
        Except.error Err.wrongMethod) ∧
    (∀ (D : Dist) (xy ab : ℝ) (n : ℕ) (n2 : Option ℕ) (twotailed : Bool)
        (conf_level : ℝ) (method : String),
      method ≠ "fisher" → method ≠ "zou" →
      independent_corr D xy ab n n2 twotailed conf_level method =
        Except.error Err.wrongMethod) := by
  constructor
  · intro D xy xz yz n twotailed conf_level method h1 h2
    simp [dependent_corr, h1, h2]
  · intro D xy ab n n2 twotailed conf_level method h1 h2
    simp [independent_corr, h1, h2]

/-- Witness for C4 at `method = "bogus"`. -/
theorem wrong_method_raises_witness :
    (("bogus" : String) ≠ "steiger" ∧ ("bogus" : String) ≠ "zou" ∧
      ("bogus" : String) ≠ "fisher") ∧
    dependent_corr D0 0 0 0 4 true none "bogus" =
      Except.error Err.wrongMethod ∧
    independent_corr D0 0 0 4 none true (95/100) "bogus" =
      Except.error Err.wrongMethod :=
  ⟨⟨by decide, by decide, by decide⟩,
    wrong_method_raises.1 D0 0 0 0 4 true none "bogus" (by decide) (by decide),
    wrong_method_raises.2 D0 0 0 4 none true (95/100) "bogus" (by decide)
      (by decide)⟩

/-- C9: for `dependent_corr`, the `zou` result does not depend on the
`twotailed` flag, and the `steiger` result does not depend on the
`conf_level` argument. -/
theorem dependent_corr_param_irrelevance (D : Dist) (xy xz yz : ℝ) (n : ℕ)
    (t1 t2 tt : Bool) (c1 c2 cl : Option ℝ) :
    dependent_corr D xy xz yz n t1 cl "zou" =
      dependent_corr D xy xz yz n t2 cl "zou" ∧
    dependent_corr D xy xz yz n tt c1 "steiger" =
      dependent_corr D xy xz yz n tt c2 "steiger" := by
  have hz : ¬ (("zou" : String) = "steiger") := by decide
  constructor
  · simp only [dependent_corr, if_neg hz]
  · simp only [dependent_corr, eq_self_iff_true, if_true]

/-- The steiger variance quantity exactly as §4.3 of the spec writes it:
`e = (n-1)(1+yz) / [2(n-1)/(n-3)*determinant + average^2*cube]` with
`determinant = 1 - xy^2 - xz^2 - yz^2 + 2*xy*xz*yz`, `average = (xy+xz)/2`
and `cube = (1-yz)^3`. -/
noncomputable def steigerSpec_e (xy xz yz : ℝ) (n : ℕ) : ℝ :=
  ((n : ℝ) - 1) * (1 + yz) /
    (2 * ((n : ℝ) - 1) / ((n : ℝ) - 3)
        * (1 - xy^2 - xz^2 - yz^2 + 2 * xy * xz * yz)
      + ((xy + xz) / 2)^2 * (1 - yz)^3)

/-- The steiger statistic as the spec writes it: `t_stat = d * sqrt(e)` with
`d = xy - xz`. -/
noncomputable def steigerSpec_stat (xy xz yz : ℝ) (n : ℕ) : ℝ :=
  (xy - xz) * Real.sqrt (steigerSpec_e xy xz yz n)

/-- The steiger p-value as the spec writes it:
`p = 1 - StudentT-CDF(|t_stat|, n-2)`, doubled exactly when the two-tailed
flag is set. -/
noncomputable def steigerSpec_p (D : Dist) (xy xz yz : ℝ) (n : ℕ)
    (twotailed : Bool) : ℝ :=
  if twotailed then
    (1 - D.tCdf |steigerSpec_stat xy xz yz n| ((n : ℝ) - 2)) * 2
  else 1 - D.tCdf |steigerSpec_stat xy xz yz n| ((n : ℝ) - 2)

/-- The spec's `e` and the code's `e` agree (the spec writes `cube` with a
cube power, the code multiplies three factors). -/
theorem steigerSpec_e_eq (xy xz yz : ℝ) (n : ℕ) :
    steigerSpec_e xy xz yz n = steiger_e xy xz yz n := by
  unfold steigerSpec_e steiger_e steiger_determin steiger_av steiger_cube
  ring_nf

/-- C5: whenever the steiger variance quantity `e` is nonnegative,
`dependent_corr` with method `steiger` returns exactly the statistic and
p-value prescribed by the spec: `t_stat = (xy - xz) * sqrt(e)` with `e` as
specified, and `p = 1 - StudentT-CDF(|t_stat|, n-2)`, doubled exactly when
the two-tailed flag is set. -/
theorem dependent_corr_steiger_formula (D : Dist) (xy xz yz : ℝ) (n : ℕ)
    (twotailed : Bool) (conf_level : Option ℝ)
    (hxy1 : -1 < xy) (hxy2 : xy < 1) (hxz1 : -1 < xz) (hxz2 : xz < 1)
    (hyz1 : -1 < yz) (hyz2 : yz < 1) (hn : 3 < n)
    (he : 0 ≤ steiger_e xy xz yz n) :
    dependent_corr D xy xz yz n twotailed conf_level "steiger" =
      Except.ok (some (steigerSpec_stat xy xz yz n,
        steigerSpec_p D xy xz yz n twotailed)) := by
  have he' : ¬ (steiger_e xy xz yz n < 0) := not_lt.mpr he
  simp only [dependent_corr, eq_self_iff_true, if_true, if_neg he',
    steigerSpec_p, steigerSpec_stat, steigerSpec_e_eq]

/-- Witness for C5 at `xy = 1/2`, `xz = 0`, `yz = 0`, `n = 5`. -/
theorem dependent_corr_steiger_formula_witness :
    0 ≤ steiger_e (1/2) 0 0 5 ∧
    dependent_corr D0 (1/2) 0 0 5 false none "steiger" =
      Except.ok (some (steigerSpec_stat (1/2) 0 0 5,
        steigerSpec_p D0 (1/2) 0 0 5 false)) := by
  have he : (0 : ℝ) ≤ steiger_e (1/2) 0 0 5 := by
    norm_num [steiger_e, steiger_determin, steiger_av, steiger_cube]
  exact ⟨he, dependent_corr_steiger_formula D0 (1/2) 0 0 5 false none
    (by norm_num) (by norm_num) (by norm_num) (by norm_num) (by norm_num)
    (by norm_num) (by norm_num) he⟩

/-- C6: with equal first and second correlations, a nonnegative `e`, the
two-tailed flag set and method `steiger`, `dependent_corr` returns the
statistic `0` and the p-value `1`.  The Student-t CDF is external SciPy
code; the hypothesis `htc` records the property of the real CDF that the
claim depends on: a Student-t distribution is symmetric, so its CDF at `0`
is `1/2`. -/
theorem dependent_corr_steiger_identity (D : Dist) (r yz : ℝ) (n : ℕ)
    (conf_level : Option ℝ)
    (hr1 : -1 < r) (hr2 : r < 1) (hyz1 : -1 < yz) (hyz2 : yz < 1)
    (hn : 3 < n) (he : 0 ≤ steiger_e r r yz n)
    (htc : D.tCdf 0 ((n : ℝ) - 2) = 1/2) :
    dependent_corr D r r yz n true conf_level "steiger" =
      Except.ok (some (0, 1)) := by
  have he' : ¬ (steiger_e r r yz n < 0) := not_lt.mpr he
  simp only [dependent_corr, eq_self_iff_true, if_true, if_neg he',
    sub_self, zero_mul, abs_zero, htc]
  norm_num

/-- Witness for C6 at `r = 0`, `yz = 0`, `n = 5` with the trivial
distribution table `D0`. -/
theorem dependent_corr_steiger_identity_witness :
    (0 ≤ steiger_e 0 0 0 5 ∧ D0.tCdf 0 ((5 : ℝ) - 2) = 1/2) ∧
    dependent_corr D0 0 0 0 5 true none "steiger" =
      Except.ok (some (0, 1)) := by
  have he : (0 : ℝ) ≤ steiger_e 0 0 0 5 := by
    norm_num [steiger_e, steiger_determin, steiger_av, steiger_cube]
  exact ⟨⟨he, rfl⟩, dependent_corr_steiger_identity D0 0 0 5 none
    (by norm_num) (by norm_num) (by norm_num) (by norm_num) (by norm_num)
    he rfl⟩

/-- C8: with `rxy` and `rxz` away from `±1`, `rho_rxy_rxz` returns exactly
the spec's quotient; with `rxy` or `rxz` at `±1` the denominator is zero
and the call raises `ZeroDivisionError` instead of returning a number. -/
theorem rho_rxy_rxz_formula :
    (∀ rxy rxz ryz : ℝ, rxy ≠ 1 → rxy ≠ -1 → rxz ≠ 1 → rxz ≠ -1 →
      rho_rxy_rxz rxy rxz ryz = Except.ok
        (((ryz - 1/2 * rxy * rxz) * (1 - rxy^2 - rxz^2 - ryz^2) + ryz^3) /
          ((1 - rxy^2) * (1 - rxz^2)))) ∧
    (∀ rxy rxz ryz : ℝ, rxy = 1 ∨ rxy = -1 ∨ rxz = 1 ∨ rxz = -1 →
      rho_rxy_rxz rxy rxz ryz = Except.error Err.divByZero) := by
  constructor
  · intro rxy rxz ryz h1 h2 h3 h4
    have hy : 1 - rxy^2 ≠ 0 := by
      intro h
      rcases mul_eq_zero.mp
          (show (1 - rxy) * (1 + rxy) = 0 by linear_combination h) with h' | h'
      · exact h1 (by linarith)
      · exact h2 (by linarith)
    have hz : 1 - rxz^2 ≠ 0 := by
      intro h
      rcases mul_eq_zero.mp
          (show (1 - rxz) * (1 + rxz) = 0 by linear_combination h) with h' | h'
      · exact h3 (by linarith)
      · exact h4 (by linarith)
    simp only [rho_rxy_rxz, if_neg (mul_ne_zero hy hz)]
  · intro rxy rxz ryz h
    rcases h with h | h | h | h <;> subst h <;> norm_num [rho_rxy_rxz]

/-- Witness for C8: the regular case at `(0, 0, 1/2)` and the degenerate
case at `rxy = 1`. -/
theorem rho_rxy_rxz_formula_witness :
    ((0 : ℝ) ≠ 1 ∧ (0 : ℝ) ≠ -1) ∧
    rho_rxy_rxz 0 0 (1/2) = Except.ok
      (((1/2 - 1/2 * 0 * 0) * (1 - 0^2 - 0^2 - (1/2)^2) + (1/2)^3) /
        ((1 - 0^2) * (1 - 0^2))) ∧
    rho_rxy_rxz 1 0 0 = Except.error Err.divByZero :=
  ⟨⟨by norm_num, by norm_num⟩,
    rho_rxy_rxz_formula.1 0 0 (1/2) (by norm_num) (by norm_num) (by norm_num)
      (by norm_num),
    rho_rxy_rxz_formula.2 1 0 0 (Or.inl rfl)⟩

/-- C10: whenever `independent_corr` with method `fisher` returns a result,
the returned `z` statistic is nonnegative: it is the absolute value of the
z-space difference over its standard error, so it carries no information
about the sign of `xy - ab`. -/
theorem independent_corr_fisher_nonneg (D : Dist) (xy ab : ℝ) (n : ℕ)
    (n2 : Option ℕ) (twotailed : Bool) (conf_level : ℝ) (z p : ℝ)
    (h : independent_corr D xy ab n n2 twotailed conf_level "fisher" =
      Except.ok (z, p)) : 0 ≤ z := by
  simp only [independent_corr, eq_self_iff_true, if_true, Except.ok.injEq,
    Prod.mk.injEq] at h
  obtain ⟨hz, -⟩ := h
  rw [← hz]
  exact abs_nonneg _

/-- Witness for C10 at `xy = ab = 0`, `n = n2 = 4`, where the fisher branch
returns `(0, 1)` under the trivial distribution table `D0`. -/
theorem independent_corr_fisher_nonneg_witness :
    independent_corr D0 0 0 4 (some 4) true (95/100) "fisher" =
      Except.ok (0, 1) ∧ (0 : ℝ) ≤ 0 := by
  have h : independent_corr D0 0 0 4 (some 4) true (95/100) "fisher" =
      Except.ok (0, 1) := by
    norm_num [independent_corr, D0, Real.log_one]
  exact ⟨h, independent_corr_fisher_nonneg D0 0 0 4 (some 4) true (95/100)
    0 1 h⟩

/-- C7: the `z` statistic of `independent_corr` with method `fisher` is
symmetric in its two (correlation, sample size) pairs: the z-space
difference flips sign under the swap, the standard error is unchanged, and
the absolute value erases the sign. -/
theorem independent_corr_fisher_symm (D : Dist) (xy ab : ℝ) (n n2 : ℕ)
    (twotailed : Bool) (conf_level : ℝ)
    (hxy1 : -1 < xy) (hxy2 : xy < 1) (hab1 : -1 < ab) (hab2 : ab < 1)
    (hn : 3 < n) (hn2 : 3 < n2) :
    Except.map Prod.fst
        (independent_corr D xy ab n (some n2) twotailed conf_level
          "fisher") =
      Except.map Prod.fst
        (independent_corr D ab xy n2 (some n) twotailed conf_level
          "fisher") := by
  simp only [independent_corr, eq_self_iff_true, if_true, Option.getD_some,
    Except.map]
  congr 1
  rw [abs_div, abs_div, abs_sub_comm,
    add_comm (1 / ((n2 : ℝ) - 3)) (1 / ((n : ℝ) - 3))]

/-- Witness for C7 at `xy = 1/2`, `ab = 0`, `n = 4`, `n2 = 5`. -/
theorem independent_corr_fisher_symm_witness :
    ((-1 : ℝ) < 1/2 ∧ (1 : ℝ)/2 < 1 ∧ (-1 : ℝ) < 0 ∧ (0 : ℝ) < 1 ∧
      3 < 4 ∧ 3 < 5) ∧
    Except.map Prod.fst
        (independent_corr D0 (1/2) 0 4 (some 5) true (95/100) "fisher") =
      Except.map Prod.fst
        (independent_corr D0 0 (1/2) 5 (some 4) true (95/100) "fisher") :=
  ⟨⟨by norm_num, by norm_num, by norm_num, by norm_num, by norm_num,
      by norm_num⟩,
    independent_corr_fisher_symm D0 (1/2) 0 4 5 true (95/100) (by norm_num)
      (by norm_num) (by norm_num) (by norm_num) (by norm_num) (by norm_num)⟩

end MVLSA
